import Mathlib

/-!
Verification of the cross-chain bridge subsystem of the `derive_client`
repository, shallowly embedded in Lean 4.

The embedding follows the Python sources:
  * `derive_client/data_types/enums.py` and `models.py` (data model, derived
    transaction statuses),
  * `derive_client/utils/w3.py` (rotating RPC provider pool, transaction
    finality polling),
  * `derive_client/_bridge/client.py` (route resolution, event correlation,
    bridge orchestration).

Machine integers are modelled as `Nat`; the floating-point backoff values of
the provider pool are modelled as `Rat` (every operation performed on them -
doubling, `min`, comparison with `0` - is exact). Ethereum addresses and
transaction hashes are modelled as abstract `Nat` identifiers. Fallible
Python code (raising exceptions) is modelled with `Option`/`Except` or with
explicit result constructors naming the exception class raised.
-/

namespace DeriveClient

/-- Transaction status enum from `data_types/enums.py` (`TxStatus`, an
`IntEnum` with values FAILED=0, SUCCESS=1, PENDING=2, ERROR=3). -/
inductive TxStatus
  | FAILED
  | SUCCESS
  | PENDING
  | ERROR
  deriving DecidableEq

/-- Integer value of each `TxStatus` member (the `IntEnum` codes). -/
def TxStatus.code : TxStatus → Nat
  | .FAILED => 0
  | .SUCCESS => 1
  | .PENDING => 2
  | .ERROR => 3

/-- Enum value lookup `TxStatus(n)`: `some` member holding value `n`,
`none` models the `ValueError` Python raises for any other integer. -/
def txStatusOfCode (n : Nat) : Option TxStatus :=
  if n = 0 then some .FAILED
  else if n = 1 then some .SUCCESS
  else if n = 2 then some .PENDING
  else if n = 3 then some .ERROR
  else none

/-- Chain identifiers from `data_types/enums.py` (`ChainID`); `LYRA` is an
alias of `DERIVE` in the source and is represented by the same constructor. -/
inductive ChainID
  | ETH
  | OPTIMISM
  | DERIVE
  | BASE
  | MODE
  | ARBITRUM
  | BLAST
  deriving DecidableEq

/-- Integer chain ids of the `ChainID` `IntEnum`. -/
def ChainID.value : ChainID → Nat
  | .ETH => 1
  | .OPTIMISM => 10
  | .DERIVE => 957
  | .BASE => 8453
  | .MODE => 34443
  | .ARBITRUM => 42161
  | .BLAST => 81457

/-- Depositable currencies from `data_types/enums.py` (`Currency`). -/
inductive Currency
  | weETH | rswETH | rsETH | USDe | deUSD | PYUSD | sUSDe | SolvBTC
  | SolvBTCBBN | LBTC | OP | DAI | sDAI | cbBTC | eBTC | AAVE | OLAS
  | DRV
  | WBTC | WETH | USDC | USDT | wstETH | USDCe | SNX
  deriving DecidableEq

/-- Environment enum from `data_types/enums.py` (`Environment`). -/
inductive Environment
  | PROD
  | TEST
  deriving DecidableEq

/-- Bridge protocol variants. The `BridgeType` enum module is not present in
the provided sources; its two members are forced by their uses in
`models.py` (`BridgeType.LAYERZERO if self.currency == Currency.DRV else
BridgeType.SOCKET`) and throughout `_bridge/client.py`. -/
inductive BridgeType
  | LAYERZERO
  | SOCKET
  deriving DecidableEq

/-- Bridge direction. The `Direction` enum module is not present in the
provided sources; its two members are forced by their uses in
`_bridge/client.py` (`Direction.DEPOSIT`, `Direction.WITHDRAW`). -/
inductive Direction
  | DEPOSIT
  | WITHDRAW
  deriving DecidableEq

/-- Decoded shape of one receipt log, abstracting web3 `process_log`: a log
either decodes as a LayerZero `OFTSent` event carrying a `guid`, as a Socket
`MessageOutbound` event carrying a `msgId`, or as anything else (in which
case `process_log` against those event ABIs raises). Correlation
identifiers are abstract `Nat` values. -/
inductive DecodedShape
  | oftSent (guid : Nat)
  | messageOutbound (msgId : Nat)
  | other
  deriving DecidableEq

/-- One raw log entry of a receipt: the transaction hash it belongs to and
its decodable shape. -/
structure LogEntry where
  transactionHash : Nat
  shape : DecodedShape
  deriving DecidableEq

/-- Result of `process_log` with the `OFTSent` event ABI: the `guid`
argument on success, `none` when decoding raises. -/
def process_oft_sent : DecodedShape → Option Nat
  | .oftSent g => some g
  | _ => none

/-- Result of `process_log` with the `MessageOutbound` event ABI: the
`msgId` argument on success, `none` when decoding raises. -/
def process_message_outbound : DecodedShape → Option Nat
  | .messageOutbound m => some m
  | _ => none

/-- An EIP-658 transaction receipt as the bridge code reads it: the status
code (0 or 1 on chain), the block number it was mined in, and its logs. -/
structure TxReceipt where
  status : Nat
  blockNumber : Nat
  logs : List LogEntry
  deriving DecidableEq

/-- `TxResult` from `data_types/models.py`: a transaction hash and an
optional receipt. -/
structure TxResult where
  tx_hash : Nat
  tx_receipt : Option TxReceipt := none
  deriving DecidableEq

/-- The `TxResult.status` property from `models.py`: `TxStatus(int(receipt.status))`
when a receipt is attached (with `none` modelling the `ValueError` raised on
a status code outside the enum), else `PENDING`. -/
def TxResult.status (t : TxResult) : Option TxStatus :=
  match t.tx_receipt with
  | some r => txStatusOfCode r.status
  | none => some .PENDING

/-- Opaque stand-in for `BridgeTxDetails` from `models.py` (contract,
method, kwargs, raw tx dict and signed payload); none of its fields are
inspected by the verified claims, so it is abstracted to a tag. -/
structure BridgeTxDetails where
  tag : Nat
  deriving DecidableEq

/-- `BridgeTxResult` from `data_types/models.py`, with the fields in source
order. -/
structure BridgeTxResult where
  currency : Currency
  bridge : BridgeType
  source_chain : ChainID
  target_chain : ChainID
  source_tx : TxResult
  tx_details : BridgeTxDetails
  target_from_block : Nat
  event_id : Option Nat := none
  target_tx : Option TxResult := none
  deriving DecidableEq

/-- The `BridgeTxResult.status` property from `models.py`: if the source
leg's status is not `SUCCESS` it is returned as-is; otherwise the target
leg's status is returned, with a missing target `TxResult` counting as
`PENDING`. -/
def BridgeTxResult.status (b : BridgeTxResult) : Option TxStatus :=
  match b.source_tx.status with
  | some .SUCCESS =>
    match b.target_tx with
    | some t => t.status
    | none => some .PENDING
  | s => s

/-- Status of the target leg as a leg on its own: `PENDING` when the target
`TxResult` is missing, else the target's derived status. -/
def BridgeTxResult.targetLegStatus (b : BridgeTxResult) : Option TxStatus :=
  match b.target_tx with
  | some t => t.status
  | none => some .PENDING

/-- The status lattice stated by the spec: FAILED if either leg is FAILED,
else PENDING if either leg is PENDING, else SUCCESS. -/
def specBridgeStatus (s t : TxStatus) : TxStatus :=
  if s = .FAILED ∨ t = .FAILED then .FAILED
  else if s = .PENDING ∨ t = .PENDING then .PENDING
  else .SUCCESS

/-- A concrete `BridgeTxResult` whose source leg is PENDING (no receipt) and
whose target leg is FAILED (receipt with status code 0). -/
def pendingFailedBridgeResult : BridgeTxResult where
  currency := .USDC
  bridge := .SOCKET
  source_chain := .ETH
  target_chain := .DERIVE
  source_tx := { tx_hash := 1 }
  tx_details := { tag := 0 }
  target_from_block := 100
  target_tx := some { tx_hash := 2, tx_receipt := some { status := 0, blockNumber := 5, logs := [] } }

/-! ### Rotating RPC provider pool (`utils/w3.py`, `make_rotating_provider_middleware`) -/

/-- Per-endpoint state of the rotating provider pool (`EndpointState` in
`utils/w3.py`): the current backoff and the time at which the endpoint next
becomes available. The provider handle itself is abstracted to a `Nat` id.
Times and backoffs are exact rationals. -/
structure EndpointState where
  provider : Nat
  backoff : Rat := 0
  next_available : Rat := 0
  deriving DecidableEq

/-- The `initial_backoff` default of `make_rotating_provider_middleware`. -/
def initial_backoff : Rat := 1

/-- The `max_backoff` default of `make_rotating_provider_middleware`. -/
def max_backoff : Rat := 600

/-- Outcome of one `provider.make_request` attempt as classified by
`rotating_backoff`: a successful response, a response dict with an
`error` payload, a `RequestException` (optionally carrying a parseable
HTTP `Retry-After` header value; `none` models a missing or unparseable
header), or any other exception. -/
inductive CallOutcome
  | success
  | rpcError
  | requestException (retryAfter : Option Rat)
  | otherException
  deriving DecidableEq

/-- State update performed on the popped endpoint by one iteration of
`rotating_backoff` in `utils/w3.py`, given the current time `now` and the
outcome of the request: on success backoff resets to 0 and the endpoint is
re-scheduled at `now`; on a JSON-RPC error payload the backoff doubles from
its previous value (or starts at `initial_backoff` when it was zero) capped
at `max_backoff`; on a `RequestException` a parseable `Retry-After` header
overrides the doubled value before the cap is applied; on any other
exception the backoff jumps straight to `max_backoff`. -/
def rotating_backoff_update (now : Rat) (s : EndpointState) : CallOutcome → EndpointState
  | .success =>
    { s with backoff := 0, next_available := now }
  | .rpcError =>
    let doubled := if s.backoff = 0 then initial_backoff else s.backoff * 2
    let capped := min doubled max_backoff
    { s with backoff := capped, next_available := now + capped }
  | .requestException retryAfter =>
    let proposed :=
      match retryAfter with
      | some h => h
      | none => if s.backoff > 0 then s.backoff * 2 else initial_backoff
    let capped := min proposed max_backoff
    { s with backoff := capped, next_available := now + capped }
  | .otherException =>
    { s with backoff := max_backoff, next_available := now + max_backoff }

/-- Pop the earliest-available endpoint from a list, mirroring `heapq.heappop`
on the heap ordered by `EndpointState.__lt__` (comparison on
`next_available`); returns the popped state and the remaining pool. -/
def popEarliest : List EndpointState → Option (EndpointState × List EndpointState)
  | [] => none
  | s :: rest =>
    match popEarliest rest with
    | none => some (s, [])
    | some (m, restMin) =>
      if s.next_available ≤ m.next_available then some (s, rest)
      else some (m, s :: restMin)

/-- Result of the availability check at the top of one `rotating_backoff`
iteration: either the pool was empty (`heappop` raises `IndexError`), or
the popped earliest endpoint is still cooling down and is pushed back before
`NoAvailableRPC` is raised (the constructor records the restored pool), or
an available endpoint was picked for the request attempt. -/
inductive PickResult
  | emptyPool
  | noAvailableRPC (restoredPool : List EndpointState)
  | picked (s : EndpointState) (rest : List EndpointState)
  deriving DecidableEq

/-- Steps 1 and 2 of `rotating_backoff` in `utils/w3.py`: pop the
earliest-available endpoint; if its `next_available` is strictly after
`now`, push it back and raise `NoAvailableRPC` without sleeping; otherwise
proceed with the popped endpoint. -/
def rotating_backoff_pick (now : Rat) (pool : List EndpointState) : PickResult :=
  match popEarliest pool with
  | none => .emptyPool
  | some (s, rest) =>
    if now < s.next_available then .noAvailableRPC (s :: rest)
    else .picked s rest

/-! ### Transaction finality tracking (`utils/w3.py`, `wait_for_tx_finality`) -/

/-- The `blockNumber` field of a `get_transaction` probe result. -/
structure TxProbe where
  blockNumber : Option Nat
  deriving DecidableEq

/-- What the node reports during one iteration of the polling loop of
`wait_for_tx_finality`: the `get_transaction_receipt` outcome (`none` models
both "no receipt" and a transient exception, which the code treats alike),
the `block_number` fetch outcome (`none` models an exception), whether
`time.monotonic() - start_time > timeout` holds at this iteration, and the
`get_transaction` probe outcome consulted only on a timeout without receipt
(`none` models both an exception and an unknown transaction). -/
structure FinalityObs where
  receipt : Option TxReceipt
  block_number : Option Nat
  timed_out : Bool
  tx_probe : Option TxProbe
  deriving DecidableEq

/-- Possible outcomes of `wait_for_tx_finality`: the receipt returned after
enough confirmations, one of the three timeout exceptions, the `NameError`
that escapes when the timeout message interpolates the never-bound
`block_number` local, or exhaustion of the modelled observation trace
(the real loop would keep polling). -/
inductive FinalityOutcome
  | finalized (r : TxReceipt)
  | finalityTimeout
  | txPendingTimeout
  | transactionDropped
  | nameError
  | exhausted
  deriving DecidableEq

/-- The timeout classification at the end of `wait_for_tx_finality`, given
this iteration's observation and the last successfully fetched block number
(`none` when `block_number` was never bound): with a receipt in hand the
code raises `FinalityTimeout` (whose message interpolates `block_number`,
raising `NameError` if that local was never assigned); with no receipt it
probes `get_transaction` and raises `TxPendingTimeout` when the node
reports the transaction pending (`blockNumber is None`), `FinalityTimeout`
when the node reports it mined, and `TransactionDropped` when the node has
no record of it. -/
def finality_timeout_classification (obs : FinalityObs) (lastBlockNumber : Option Nat) :
    FinalityOutcome :=
  match obs.receipt with
  | some _ =>
    match lastBlockNumber with
    | some _ => .finalityTimeout
    | none => .nameError
  | none =>
    match obs.tx_probe with
    | some probe =>
      match probe.blockNumber with
      | none => .txPendingTimeout
      | some _ => .finalityTimeout
    | none => .transactionDropped

/-- The polling loop of `wait_for_tx_finality` in `utils/w3.py`, run over a
finite trace of per-iteration observations, threading the last successfully
bound `block_number` local. Each iteration fetches the receipt; when a
receipt is present it fetches the current block number (binding the
`block_number` local on success) and returns the receipt as soon as
`block_number >= receipt.blockNumber + finality_blocks`; otherwise, once
the timeout has elapsed, the iteration classifies the failure; otherwise it
sleeps and polls again. -/
def wait_for_tx_finality (finality_blocks : Nat) :
    List FinalityObs → Option Nat → FinalityOutcome
  | [], _ => .exhausted
  | obs :: rest, lastBlockNumber =>
    let fetched : Option Nat :=
      match obs.receipt with
      | some _ => obs.block_number
      | none => none
    let lastBound : Option Nat :=
      match fetched with
      | some bn => some bn
      | none => lastBlockNumber
    let returned : Option TxReceipt :=
      match obs.receipt, fetched with
      | some r, some bn => if r.blockNumber + finality_blocks ≤ bn then some r else none
      | _, _ => none
    match returned with
    | some r => .finalized r
    | none =>
      if obs.timed_out then finality_timeout_classification obs lastBound
      else wait_for_tx_finality finality_blocks rest lastBound

/-! ### Route resolution (`_bridge/client.py`, `BridgeClient._resolve_socket_route`) -/

/-- Association-list lookup, modelling Python `dict` access on the small
registry maps (`.get` when the caller handles `none`, `[]` when a missing
key raises `KeyError`). -/
def alookup {α β : Type} [DecidableEq α] (a : α) : List (α × β) → Option β
  | [] => none
  | p :: rest => if p.1 = a then some p.2 else alookup a rest

/-- The `TARGET_SPEED` constant: the fixed connector speed tier. Its
definition module is not in the provided sources; the value `"FAST"` is
taken from the in-repo example scripts that re-declare it. -/
def TARGET_SPEED : String := "FAST"

/-- Token route data for one (chain, currency) pair (`TokenData` and its
`MintableTokenData`/`NonMintableTokenData` subclasses in `models.py`):
the connectors map from destination chain to per-speed-tier connector
addresses, plus the flags. The contract address fields, which route
resolution passes through without inspecting, are abstracted into `tag`. -/
structure TokenData where
  isAppChain : Bool
  isNewBridge : Bool
  connectors : List (ChainID × List (String × Nat))
  tag : Nat
  deriving DecidableEq

/-- The address registry (`DeriveAddresses.chains` in `models.py`): a map
from chain id to a map from currency to token route data. -/
def Registry : Type := List (ChainID × List (Currency × TokenData))

/-- Source chain used by `_resolve_socket_route`: the remote chain for a
deposit, the Derive app-chain for a withdrawal. -/
def socket_src_chain (direction : Direction) (remote_chain_id : ChainID) : ChainID :=
  if direction = .DEPOSIT then remote_chain_id else .DERIVE

/-- Target chain used by `_resolve_socket_route`: the Derive app-chain for a
deposit, the remote chain for a withdrawal. -/
def socket_tgt_chain (direction : Direction) (remote_chain_id : ChainID) : ChainID :=
  if direction = .DEPOSIT then .DERIVE else remote_chain_id

/-- Outcome of `_resolve_socket_route`: the `BridgeRouteError` it raises, the
bare `KeyError` that escapes from `chains[chain]` or from the
`connectors[tgt_chain][TARGET_SPEED]` indexing, or the returned pair of
source-side token data and target-chain connector address. -/
inductive RouteResolution
  | bridgeRouteError
  | keyError
  | resolved (src_token_data : TokenData) (connector : Nat)
  deriving DecidableEq

/-- `BridgeClient._resolve_socket_route` from `_bridge/client.py`, in source
order: index `chains[src_chain]` (KeyError when the chain key is absent),
`.get(currency)` (`BridgeRouteError` when absent); the same on the target
side; `BridgeRouteError` when the target chain is missing from the source
data's connectors or the source chain from the target data's connectors;
finally return the source token data and
`connectors[tgt_chain][TARGET_SPEED]` (KeyError when the speed tier is
absent). -/
def _resolve_socket_route (registry : Registry) (direction : Direction)
    (remote_chain_id : ChainID) (currency : Currency) : RouteResolution :=
  let src_chain := socket_src_chain direction remote_chain_id
  let tgt_chain := socket_tgt_chain direction remote_chain_id
  match alookup src_chain registry with
  | none => .keyError
  | some srcChainMap =>
    match alookup currency srcChainMap with
    | none => .bridgeRouteError
    | some src_token_data =>
      match alookup tgt_chain registry with
      | none => .keyError
      | some tgtChainMap =>
        match alookup currency tgtChainMap with
        | none => .bridgeRouteError
        | some tgt_token_data =>
          match alookup tgt_chain src_token_data.connectors with
          | none => .bridgeRouteError
          | some speedMap =>
            match alookup src_chain tgt_token_data.connectors with
            | none => .bridgeRouteError
            | some _ =>
              match alookup TARGET_SPEED speedMap with
              | none => .keyError
              | some connector => .resolved src_token_data connector

/-! ### Event correlation (`_bridge/client.py`, `_fetch_lz_event_log` and
`_fetch_socket_event_log`) -/

/-- The element Python's `logs[-2]` denotes: the second-to-last element of a
list, when it has at least two elements. -/
def secondLast {α : Type} (l : List α) : Option α :=
  match l.reverse with
  | _ :: x :: _ => some x
  | _ => none

/-- Correlation-identifier extraction of `_fetch_lz_event_log`: decode the
last log of the source receipt with the `OFTSent` ABI and take its `guid`.
`none` models every failure path of the `try` block - a missing receipt
(`AttributeError`), an empty log list (`IndexError` on `logs[-1]`), or a
log that does not decode - all of which the code converts into
`BridgeEventParseError`. -/
def lz_extract_guid (receipt : Option TxReceipt) : Option Nat :=
  match receipt with
  | none => none
  | some r =>
    match r.logs.getLast? with
    | none => none
    | some entry => process_oft_sent entry.shape

/-- Correlation-identifier extraction of `_fetch_socket_event_log`: decode
the second-to-last log of the source receipt with the `MessageOutbound` ABI
and take its `msgId`; `none` models the failure paths converted into
`BridgeEventParseError`. -/
def socket_extract_msg_id (receipt : Option TxReceipt) : Option Nat :=
  match receipt with
  | none => none
  | some r =>
    match secondLast r.logs with
    | none => none
    | some entry => process_message_outbound entry.shape

/-- Target-side `eth_getLogs` filter built by `make_filter_params` in
`_fetch_lz_event_log`: the starting block and the `guid` argument filter. -/
structure LzFilterParams where
  fromBlock : Nat
  guid_filter : Option Nat
  deriving DecidableEq

/-- Target-side filter of `_fetch_socket_event_log`: the starting block of
the raw event filter, plus the `msgId` the `matching_message_id` condition
compares each decoded log against. -/
structure SocketFilterParams where
  fromBlock : Nat
  match_msg_id : Nat
  deriving DecidableEq

/-- The filter-building half of `_fetch_lz_event_log`: on successful guid
extraction, the `event_id` recorded on the result and the filter parameters
passed to `wait_for_event` (matching the guid, starting at the recorded
`target_from_block`); `Except.error` models `BridgeEventParseError`. -/
def _fetch_lz_event_filter (receipt : Option TxReceipt) (target_from_block : Nat) :
    Except Unit (Nat × LzFilterParams) :=
  match lz_extract_guid receipt with
  | none => .error ()
  | some guid => .ok (guid, { fromBlock := target_from_block, guid_filter := some guid })

/-- The filter-building half of `_fetch_socket_event_log`: on successful
msgId extraction, the recorded `event_id` and the filter parameters passed
to `wait_for_event` (starting at the recorded `target_from_block`, with the
condition matching the extracted msgId); `Except.error` models
`BridgeEventParseError`. -/
def _fetch_socket_event_filter (receipt : Option TxReceipt) (target_from_block : Nat) :
    Except Unit (Nat × SocketFilterParams) :=
  match socket_extract_msg_id receipt with
  | none => .error ()
  | some msgId => .ok (msgId, { fromBlock := target_from_block, match_msg_id := msgId })

/-! ### Bridge progress polling (`_bridge/client.py`, `poll_bridge_progress`) -/

/-- Oracle for the RPC interactions of one `poll_bridge_progress` call: the
outcome of `wait_for_tx_finality` on the source transaction, the outcome of
the target-chain `wait_for_event` log scan (`none` models its
`TimeoutError`), and the outcome of `wait_for_tx_finality` on the
discovered target transaction. -/
structure PollEnv where
  source_finality : FinalityOutcome
  target_scan : Option LogEntry
  target_finality : FinalityOutcome
  deriving DecidableEq

/-- `poll_bridge_progress` from `_bridge/client.py`. It mutates the given
`BridgeTxResult` in place stage by stage; any exception is wrapped in
`PartialBridgeResult` carrying the partially updated result, modelled as
`Except.error` holding that result. The returned `Bool` records whether a
target-chain log scan (`wait_for_event`) was started.

Stages, in source order: attach the source receipt from
`confirm_source_tx`; extract the correlation id from the source receipt
(setting `event_id`) and scan the target chain for the matching event,
attaching a fresh target `TxResult` with the event's transaction hash; then
attach the target receipt from `confirm_target_tx`. No stage inspects the
source receipt's status code. -/
def poll_bridge_progress (env : PollEnv) (tx_result : BridgeTxResult) :
    Except BridgeTxResult BridgeTxResult × Bool :=
  match env.source_finality with
  | .finalized r =>
    let tx1 := { tx_result with source_tx := { tx_result.source_tx with tx_receipt := some r } }
    let corr : Except Unit Nat :=
      match tx1.bridge with
      | .LAYERZERO => match lz_extract_guid tx1.source_tx.tx_receipt with
        | none => .error ()
        | some guid => .ok guid
      | .SOCKET => match socket_extract_msg_id tx1.source_tx.tx_receipt with
        | none => .error ()
        | some msgId => .ok msgId
    match corr with
    | .error _ => (.error tx1, false)
    | .ok eventId =>
      let tx2 := { tx1 with event_id := some eventId }
      match env.target_scan with
      | none => (.error tx2, true)
      | some entry =>
        let tx3 := { tx2 with target_tx := some { tx_hash := entry.transactionHash } }
        match env.target_finality with
        | .finalized tr =>
          let tx4 := { tx3 with
            target_tx := some { tx_hash := entry.transactionHash, tx_receipt := some tr } }
          (.ok tx4, true)
        | _ => (.error tx3, true)
  | _ => (.error tx_result, false)

/-! ### Native-token withdrawal preparation (`_bridge/client.py`,
`_prepare_layerzero_withdrawal`) -/

/-- Observable steps of `_prepare_layerzero_withdrawal`, in source order. -/
inductive PrepStep
  | ensureTokenBalance
  | quoteFee
  | encodeCalldata
  | buildTransaction
  | signTransaction
  deriving DecidableEq

/-- Errors `_prepare_layerzero_withdrawal` can raise before producing a
prepared transaction. -/
inductive PrepErr
  | insufficientTokenBalance
  | drvWithdrawAmountBelowFee
  deriving DecidableEq

/-- A prepared, signed, not-yet-sent bridge transaction
(`PreparedBridgeTx` in the data model), with the transaction payload
abstracted into `tx_details`. -/
structure PreparedBridgeTx where
  currency : Currency
  bridge : BridgeType
  source_chain : ChainID
  target_chain : ChainID
  tx_details : BridgeTxDetails
  deriving DecidableEq

/-- Chain-side inputs of one `_prepare_layerzero_withdrawal` call: the
wallet's token balance read by `ensure_token_balance` and the protocol fee
quoted by the withdraw wrapper's `getFeeInToken`. -/
structure LzWithdrawEnv where
  wallet_balance : Nat
  quoted_fee : Nat
  deriving DecidableEq

/-- Modelled from the spec: `ensure_token_balance` lives in
`_bridge/w3.py`, which is absent from the provided sources. The spec
("verify sufficient token balance"; error taxonomy "insufficient token
balance: no retry, user must act") and the in-repo predecessor
`ensure_balance` in `_bridge/transaction.py` (raises when
`amount > balance`) fix its behaviour: raise iff the balance does not
cover the requested amount. -/
def ensure_token_balance (balance amount : Nat) : Bool :=
  decide (balance < amount)

/-- `_prepare_layerzero_withdrawal` from `_bridge/client.py`, returning the
result together with the trace of steps performed, in source order: check
the wallet's token balance (raising stops the call); quote the fee via
`getFeeInToken`; raise `DrvWithdrawAmountBelowFee` if `amount < fee`;
otherwise encode the batched approve-and-withdraw calldata, build the
transaction and sign it. -/
def _prepare_layerzero_withdrawal (env : LzWithdrawEnv) (amount : Nat)
    (remote_chain_id : ChainID) : Except PrepErr PreparedBridgeTx × List PrepStep :=
  if ensure_token_balance env.wallet_balance amount then
    (.error .insufficientTokenBalance, [.ensureTokenBalance])
  else if amount < env.quoted_fee then
    (.error .drvWithdrawAmountBelowFee, [.ensureTokenBalance, .quoteFee])
  else
    (.ok { currency := .DRV, bridge := .LAYERZERO, source_chain := .DERIVE,
           target_chain := remote_chain_id, tx_details := { tag := amount } },
     [.ensureTokenBalance, .quoteFee, .encodeCalldata, .buildTransaction, .signTransaction])

/-! ### Transaction submission (`_bridge/client.py`, `send_bridge_tx`) -/

/-- The RPC effects `send_bridge_tx` performs, in order. -/
inductive SendStep
  | readTargetBlockNumber
  | sendRawTransaction
  deriving DecidableEq

/-- Chain-side inputs of one `send_bridge_tx` call: the target chain's head
block number as a function of time (one tick per awaited RPC call, tick 0
being the first call of the body) and the transaction hash the source node
returns from `eth_sendRawTransaction`. -/
structure SendEnv where
  target_block_at : Nat → Nat
  send_tx_hash : Nat

/-- The source/target handles `_get_context` resolves for a prepared
transaction; only the chain ids matter to the claims. -/
structure ResolvedContext where
  source_chain : ChainID
  target_chain : ChainID
  deriving DecidableEq

/-- `send_bridge_tx` from `_bridge/client.py`, with its two awaited RPC
calls time-stamped in program order: at tick 0 it reads the target chain's
current block number into `target_from_block`; at tick 1 it broadcasts the
signed source transaction; it then returns a `BridgeTxResult` with only the
source side populated. The returned trace pairs each step with its tick. -/
def send_bridge_tx (env : SendEnv) (context : ResolvedContext)
    (prepared_tx : PreparedBridgeTx) : BridgeTxResult × List (Nat × SendStep) :=
  let target_from_block := env.target_block_at 0
  let source_tx : TxResult := { tx_hash := env.send_tx_hash }
  ({ currency := prepared_tx.currency
     bridge := prepared_tx.bridge
     source_chain := context.source_chain
     target_chain := context.target_chain
     source_tx := source_tx
     tx_details := prepared_tx.tx_details
     target_from_block := target_from_block },
   [(0, .readTargetBlockNumber), (1, .sendRawTransaction)])

/-! ### Client construction (`_bridge/client.py`, `BridgeClient.__init__`
and `BridgeClient.create`) -/

/-- The validated state of a successfully created `BridgeClient`; addresses
are abstract `Nat` identifiers. -/
structure BridgeClientState where
  environment : Environment
  remote_chain_id : ChainID
  account_address : Nat
  owner : Nat
  deriving DecidableEq

/-- Outcome of `BridgeClient.create`: the `RuntimeError` raised outside the
PROD environment, the `BridgePrimarySignerRequiredError` raised when the
Light Account's on-chain owner differs from the signer address, or the
created instance. -/
inductive CreateResult
  | runtimeError
  | primarySignerRequiredError
  | created (client : BridgeClientState)
  deriving DecidableEq

/-- `BridgeClient.create` from `_bridge/client.py`: reject every
environment other than PROD with `RuntimeError`; read the Light Account
wallet's on-chain `owner()`; reject with `BridgePrimarySignerRequiredError`
when it differs from the signer account's address; otherwise record the
owner on the instance and return it. -/
def BridgeClient_create (environment : Environment) (chain_id : ChainID)
    (account_address : Nat) (onchain_owner : Nat) : CreateResult :=
  if ¬ environment = .PROD then .runtimeError
  else if ¬ onchain_owner = account_address then .primarySignerRequiredError
  else .created { environment := environment, remote_chain_id := chain_id,
                  account_address := account_address, owner := onchain_owner }

/-- `BridgeClient.__init__` from `_bridge/client.py`: direct instantiation
unconditionally raises `RuntimeError` directing callers to the factory. -/
def BridgeClient_init : CreateResult := .runtimeError

/-! ### Concrete instances used by counterexamples and witnesses -/

/-- A variant of `pendingFailedBridgeResult` in which both legs carry a
receipt with EIP-658 status code 1 (both SUCCESS). -/
def successSuccessBridgeResult : BridgeTxResult :=
  { pendingFailedBridgeResult with
    source_tx := { tx_hash := 1, tx_receipt := some { status := 1, blockNumber := 3, logs := [] } },
    target_tx := some { tx_hash := 2, tx_receipt := some { status := 1, blockNumber := 5, logs := [] } } }

/-- A successfully created client state with matching owner and signer. -/
def primaryOwnerClient : BridgeClientState :=
  { environment := .PROD, remote_chain_id := .ETH, account_address := 7, owner := 7 }

/-- An endpoint deep in backoff (512s, one doubling below the cap). -/
def throttledEndpoint : EndpointState :=
  { provider := 0, backoff := 512, next_available := 1000 }

/-- A two-endpoint pool in which both endpoints are cooling down past time 5. -/
def coolingPool : List EndpointState :=
  [{ provider := 0, backoff := 1, next_available := 10 },
   { provider := 1, backoff := 2, next_available := 8 }]

/-- A final poll observation with no receipt where the `get_transaction`
probe reports the transaction mined at block 5. -/
def minedProbeObs : FinalityObs :=
  { receipt := none, block_number := none, timed_out := true,
    tx_probe := some { blockNumber := some 5 } }

/-- A receipt mined at block 2. -/
def confirmableReceipt : TxReceipt := { status := 1, blockNumber := 2, logs := [] }

/-- A poll observation seeing `confirmableReceipt` with the chain head at
block 5 and the timeout not yet elapsed. -/
def confirmedObs : FinalityObs :=
  { receipt := some confirmableReceipt, block_number := some 5, timed_out := false,
    tx_probe := none }

/-- Source token data whose Derive connector map only offers a SLOW tier. -/
def speedlessSrcData : TokenData :=
  { isAppChain := false, isNewBridge := true,
    connectors := [(.DERIVE, [("SLOW", 7)])], tag := 1 }

/-- Target token data whose ETH connector map only offers a SLOW tier. -/
def speedlessTgtData : TokenData :=
  { isAppChain := true, isNewBridge := true,
    connectors := [(.ETH, [("SLOW", 8)])], tag := 2 }

/-- A registry carrying USDC route data on both sides, with the
counter-chain present in both connectors maps, but no FAST speed tier. -/
def speedlessRegistry : Registry :=
  [(.ETH, [(.USDC, speedlessSrcData)]), (.DERIVE, [(.USDC, speedlessTgtData)])]

/-- Source token data with a FAST Derive connector. -/
def fastSrcData : TokenData :=
  { isAppChain := false, isNewBridge := true,
    connectors := [(.DERIVE, [("FAST", 7)])], tag := 1 }

/-- Target token data with a FAST ETH connector. -/
def fastTgtData : TokenData :=
  { isAppChain := true, isNewBridge := true,
    connectors := [(.ETH, [("FAST", 8)])], tag := 2 }

/-- A fully populated registry for USDC between ETH and Derive. -/
def fastRegistry : Registry :=
  [(.ETH, [(.USDC, fastSrcData)]), (.DERIVE, [(.USDC, fastTgtData)])]

/-- A source receipt whose last log decodes as `OFTSent` with guid 42. -/
def oftSentReceipt : TxReceipt :=
  { status := 1, blockNumber := 4,
    logs := [{ transactionHash := 11, shape := .other },
             { transactionHash := 12, shape := .oftSent 42 }] }

/-- A source receipt whose second-to-last log decodes as `MessageOutbound`
with msgId 9. -/
def socketOutboundReceipt : TxReceipt :=
  { status := 1, blockNumber := 4,
    logs := [{ transactionHash := 13, shape := .messageOutbound 9 },
             { transactionHash := 14, shape := .other }] }

/-- A reverted source receipt: EIP-658 status 0 and, as for every reverted
transaction, an empty log list. -/
def revertedSourceReceipt : TxReceipt := { status := 0, blockNumber := 7, logs := [] }

/-- A polling oracle whose source-finality wait returns the reverted
receipt. -/
def revertedPollEnv : PollEnv :=
  { source_finality := .finalized revertedSourceReceipt, target_scan := none,
    target_finality := .exhausted }

/-- A freshly submitted DRV (LayerZero) bridge result, source receipt not
yet attached. -/
def drvPendingResult : BridgeTxResult :=
  { currency := .DRV, bridge := .LAYERZERO, source_chain := .DERIVE, target_chain := .ETH,
    source_tx := { tx_hash := 3 }, tx_details := { tag := 1 }, target_from_block := 50 }

/-- `drvPendingResult` after the reverted source receipt is attached. -/
def drvFailedSourceResult : BridgeTxResult :=
  { drvPendingResult with
    source_tx := { tx_hash := 3, tx_receipt := some revertedSourceReceipt } }

/-- A freshly submitted USDC (Socket) bridge result. -/
def usdcPendingResult : BridgeTxResult :=
  { currency := .USDC, bridge := .SOCKET, source_chain := .ETH, target_chain := .DERIVE,
    source_tx := { tx_hash := 4 }, tx_details := { tag := 2 }, target_from_block := 60 }

/-- `usdcPendingResult` after the reverted source receipt is attached. -/
def usdcFailedSourceResult : BridgeTxResult :=
  { usdcPendingResult with
    source_tx := { tx_hash := 4, tx_receipt := some revertedSourceReceipt } }

/-! ## Claim theorems -/

/-- C1 counterexample: on the concrete `BridgeTxResult` whose source leg is
PENDING and whose target leg is FAILED, the derived status is PENDING, not
the FAILED the claimed lattice ("FAILED if either leg is FAILED") demands. -/
theorem bridge_status_lattice_counterexample :
    pendingFailedBridgeResult.source_tx.status = some TxStatus.PENDING
    ∧ pendingFailedBridgeResult.targetLegStatus = some TxStatus.FAILED
    ∧ pendingFailedBridgeResult.status = some TxStatus.PENDING
    ∧ specBridgeStatus TxStatus.PENDING TxStatus.FAILED = TxStatus.FAILED := by
  refine ⟨rfl, rfl, rfl, by decide⟩

/-- C1 (amended): `BridgeTxResult.status` returns the source leg's status
whenever that is not SUCCESS, and the target leg's status otherwise; this
agrees with the spec's lattice on all of the nine
{SUCCESS, FAILED, PENDING}² combinations except
(source PENDING, target FAILED), where it yields PENDING. -/
theorem bridge_status_source_gated (b : BridgeTxResult) (s t : TxStatus)
    (hs : b.source_tx.status = some s) (ht : b.targetLegStatus = some t) :
    b.status = some (if s = .SUCCESS then t else s)
    ∧ (s ≠ .ERROR → t ≠ .ERROR → ¬(s = .PENDING ∧ t = .FAILED) →
        b.status = some (specBridgeStatus s t)) := by
  have hmain : b.status = some (if s = .SUCCESS then t else s) := by
    unfold BridgeTxResult.status
    rw [hs]
    unfold BridgeTxResult.targetLegStatus at ht
    cases s with
    | SUCCESS =>
      cases htx : b.target_tx with
      | none =>
        rw [htx] at ht
        simp at ht
        simp [ht]
      | some tt => rw [htx] at ht; simpa using ht
    | FAILED => simp
    | PENDING => simp
    | ERROR => simp
  refine ⟨hmain, fun hserr hterr hbad => ?_⟩
  rw [hmain]
  cases s <;> cases t <;> simp_all [specBridgeStatus]

/-- C1 witness: the amended status derivation evaluated on the concrete
PENDING/FAILED result and on a SUCCESS/SUCCESS variant of it. -/
theorem bridge_status_source_gated_witness :
    pendingFailedBridgeResult.status
      = some (if TxStatus.PENDING = TxStatus.SUCCESS then TxStatus.FAILED else TxStatus.PENDING)
    ∧ successSuccessBridgeResult.status
      = some (specBridgeStatus TxStatus.SUCCESS TxStatus.SUCCESS) :=
  ⟨(bridge_status_source_gated pendingFailedBridgeResult TxStatus.PENDING TxStatus.FAILED
      (by decide) (by decide)).1,
   (bridge_status_source_gated successSuccessBridgeResult TxStatus.SUCCESS TxStatus.SUCCESS
      (by decide) (by decide)).2 (by decide) (by decide) (by decide)⟩

/-- C8 counterexample: a DRV withdrawal whose amount (5) is strictly below
the quoted fee (10) but also exceeds the wallet's token balance (0) raises
the insufficient-balance error from the balance check that precedes the fee
quote, not `DrvWithdrawAmountBelowFee`. -/
theorem prepare_layerzero_withdrawal_counterexample :
    _prepare_layerzero_withdrawal { wallet_balance := 0, quoted_fee := 10 } 5 ChainID.ETH
      = (.error .insufficientTokenBalance, [.ensureTokenBalance])
    ∧ 5 < 10
    ∧ PrepErr.insufficientTokenBalance ≠ PrepErr.drvWithdrawAmountBelowFee := by
  refine ⟨rfl, by decide, by decide⟩

/-- C8 (amended): for every DRV withdrawal whose amount the wallet's token
balance covers and whose amount is strictly below the quoted protocol fee,
`_prepare_layerzero_withdrawal` raises `DrvWithdrawAmountBelowFee` right
after the fee quote: no calldata is encoded, no transaction is built or
signed, and no `PreparedBridgeTx` is produced. -/
theorem prepare_layerzero_withdrawal_below_fee (env : LzWithdrawEnv) (amount : Nat)
    (remote : ChainID) (hbal : amount ≤ env.wallet_balance) (hfee : amount < env.quoted_fee) :
    _prepare_layerzero_withdrawal env amount remote
      = (.error .drvWithdrawAmountBelowFee, [.ensureTokenBalance, .quoteFee])
    ∧ PrepStep.buildTransaction ∉ (_prepare_layerzero_withdrawal env amount remote).2
    ∧ PrepStep.signTransaction ∉ (_prepare_layerzero_withdrawal env amount remote).2
    ∧ ∀ p, (_prepare_layerzero_withdrawal env amount remote).1 ≠ .ok p := by
  have hnb : ensure_token_balance env.wallet_balance amount = false := by
    unfold ensure_token_balance
    simpa using by omega
  have hmain : _prepare_layerzero_withdrawal env amount remote
      = (.error .drvWithdrawAmountBelowFee, [.ensureTokenBalance, .quoteFee]) := by
    unfold _prepare_layerzero_withdrawal
    rw [hnb]
    simp [hfee]
  refine ⟨hmain, ?_, ?_, ?_⟩
  · rw [hmain]; decide
  · rw [hmain]; decide
  · intro p; rw [hmain]; simp

/-- C8 witness: the amended below-fee behaviour evaluated at balance 100,
amount 5, fee 10. -/
theorem prepare_layerzero_withdrawal_below_fee_witness :
    _prepare_layerzero_withdrawal { wallet_balance := 100, quoted_fee := 10 } 5 ChainID.ETH
      = (.error .drvWithdrawAmountBelowFee, [.ensureTokenBalance, .quoteFee]) :=
  (prepare_layerzero_withdrawal_below_fee { wallet_balance := 100, quoted_fee := 10 } 5
    ChainID.ETH (by decide) (by decide)).1

/-- C9: `send_bridge_tx` reads the target chain's block number at tick 0 and
broadcasts the signed source transaction at tick 1, so with a monotone
target-chain head the recorded `target_from_block` is at or before the
target head as of submission time. -/
theorem send_bridge_tx_block_before_send (env : SendEnv) (context : ResolvedContext)
    (p : PreparedBridgeTx) (hmono : Monotone env.target_block_at) :
    (send_bridge_tx env context p).1.target_from_block = env.target_block_at 0
    ∧ (send_bridge_tx env context p).2
        = [(0, .readTargetBlockNumber), (1, .sendRawTransaction)]
    ∧ (send_bridge_tx env context p).1.target_from_block ≤ env.target_block_at 1 :=
  ⟨rfl, rfl, hmono (Nat.zero_le 1)⟩

/-- C9 witness: the submission-ordering theorem evaluated with the identity
block-number schedule. -/
theorem send_bridge_tx_block_before_send_witness :
    (send_bridge_tx { target_block_at := id, send_tx_hash := 9 }
        { source_chain := .ETH, target_chain := .DERIVE }
        { currency := .USDC, bridge := .SOCKET, source_chain := .ETH,
          target_chain := .DERIVE, tx_details := { tag := 0 } }).1.target_from_block
      ≤ id 1 :=
  (send_bridge_tx_block_before_send { target_block_at := id, send_tx_hash := 9 }
    { source_chain := .ETH, target_chain := .DERIVE }
    { currency := .USDC, bridge := .SOCKET, source_chain := .ETH,
      target_chain := .DERIVE, tx_details := { tag := 0 } } monotone_id).2.2

/-- C10: `BridgeClient.create` rejects every environment other than PROD
with `RuntimeError` and rejects a signer that is not the Light Account's
on-chain owner with `BridgePrimarySignerRequiredError`; every successfully
created client satisfies `owner = account.address`; and direct
instantiation (`__init__`) always raises `RuntimeError`. -/
theorem bridge_client_create_gating (environment : Environment) (chain_id : ChainID)
    (acct owner : Nat) :
    (environment ≠ .PROD →
        BridgeClient_create environment chain_id acct owner = .runtimeError)
    ∧ (environment = .PROD → owner ≠ acct →
        BridgeClient_create environment chain_id acct owner = .primarySignerRequiredError)
    ∧ (∀ c, BridgeClient_create environment chain_id acct owner = .created c →
        c.owner = c.account_address)
    ∧ BridgeClient_init = .runtimeError := by
  refine ⟨fun hne => ?_, fun he hno => ?_, fun c hc => ?_, rfl⟩
  · unfold BridgeClient_create
    rw [if_pos hne]
  · unfold BridgeClient_create
    rw [if_neg (by simpa using he), if_pos hno]
  · unfold BridgeClient_create at hc
    by_cases h1 : environment = .PROD
    · rw [if_neg (by simpa using h1)] at hc
      by_cases h2 : owner = acct
      · rw [if_neg (by simpa using h2)] at hc
        cases hc
        simpa using h2
      · rw [if_pos h2] at hc
        cases hc
    · rw [if_pos h1] at hc
      cases hc

/-- C10 witness: the creation gate evaluated at the TEST environment, at a
mismatched owner, and at a successful creation. -/
theorem bridge_client_create_gating_witness :
    BridgeClient_create Environment.TEST ChainID.ETH 7 8 = .runtimeError
    ∧ BridgeClient_create Environment.PROD ChainID.ETH 7 8 = .primarySignerRequiredError
    ∧ primaryOwnerClient.owner = primaryOwnerClient.account_address :=
  ⟨(bridge_client_create_gating Environment.TEST ChainID.ETH 7 8).1 (by decide),
   (bridge_client_create_gating Environment.PROD ChainID.ETH 7 8).2.1 rfl (by decide),
   (bridge_client_create_gating Environment.PROD ChainID.ETH 7 7).2.2.1 _ rfl⟩

/-- C4 counterexample: on an endpoint whose backoff is 512s, a failed
request whose response carries `Retry-After: 1` leaves the backoff at 1s -
strictly below its previous value, contradicting "each failed call attempt
leaves the provider's backoff greater than or equal to its previous
value". -/
theorem rotating_backoff_retry_after_counterexample :
    (rotating_backoff_update 1000 throttledEndpoint (.requestException (some 1))).backoff = 1
    ∧ (1 : Rat) < throttledEndpoint.backoff := by
  constructor
  · show min (1 : Rat) max_backoff = 1
    rw [min_eq_left]
    norm_num [max_backoff]
  · norm_num [throttledEndpoint]

/-- C4 (amended): a successful call resets the backoff to zero; a failed
call without a parseable `Retry-After` header (JSON-RPC error payload,
header-less network exception, or unexpected exception) never decreases
the backoff and keeps it at or below the 600s cap; a failed call whose
response carries a parseable `Retry-After` header sets the backoff to
`min(header, 600)`, which may be below the previous value. -/
theorem rotating_backoff_update_monotone (now : Rat) (s : EndpointState)
    (h0 : 0 ≤ s.backoff) (hcap : s.backoff ≤ max_backoff) :
    ((rotating_backoff_update now s .success).backoff = 0)
    ∧ (s.backoff ≤ (rotating_backoff_update now s .rpcError).backoff
        ∧ (rotating_backoff_update now s .rpcError).backoff ≤ max_backoff)
    ∧ (s.backoff ≤ (rotating_backoff_update now s (.requestException none)).backoff
        ∧ (rotating_backoff_update now s (.requestException none)).backoff ≤ max_backoff)
    ∧ (s.backoff ≤ (rotating_backoff_update now s .otherException).backoff)
    ∧ (∀ hdr : Rat, (rotating_backoff_update now s (.requestException (some hdr))).backoff
        = min hdr max_backoff) := by
  refine ⟨rfl, ⟨?_, ?_⟩, ⟨?_, ?_⟩, ?_, fun hdr => rfl⟩
  · show s.backoff ≤ min (if s.backoff = 0 then initial_backoff else s.backoff * 2) max_backoff
    refine le_min ?_ hcap
    split_ifs with h
    · rw [h]; norm_num [initial_backoff]
    · linarith
  · exact min_le_right _ _
  · show s.backoff ≤ min (if s.backoff > 0 then s.backoff * 2 else initial_backoff) max_backoff
    refine le_min ?_ hcap
    split_ifs with h
    · linarith
    · have hz : s.backoff = 0 := le_antisymm (not_lt.mp h) h0
      rw [hz]; norm_num [initial_backoff]
  · exact min_le_right _ _
  · exact hcap

/-- C4 witness: the amended backoff transitions evaluated on the concrete
512s-backoff endpoint. -/
theorem rotating_backoff_update_monotone_witness :
    throttledEndpoint.backoff
      ≤ (rotating_backoff_update 1000 throttledEndpoint .rpcError).backoff
    ∧ (rotating_backoff_update 1000 throttledEndpoint .success).backoff = 0 :=
  ⟨(rotating_backoff_update_monotone 1000 throttledEndpoint
      (by norm_num [throttledEndpoint]) (by norm_num [throttledEndpoint, max_backoff])).2.1.1,
   (rotating_backoff_update_monotone 1000 throttledEndpoint
      (by norm_num [throttledEndpoint]) (by norm_num [throttledEndpoint, max_backoff])).1⟩

/-- Popping from a nonempty pool always yields an element. -/
theorem popEarliest_isSome (a : EndpointState) (l : List EndpointState) :
    (popEarliest (a :: l)).isSome := by
  cases hl : popEarliest l with
  | none => simp [popEarliest, hl]
  | some p =>
    obtain ⟨m, restMin⟩ := p
    by_cases h : a.next_available ≤ m.next_available <;>
      simp [popEarliest, hl, h]

/-- Popping the earliest endpoint is a permutation split of the pool. -/
theorem popEarliest_perm (pool : List EndpointState) :
    ∀ s rest, popEarliest pool = some (s, rest) → pool.Perm (s :: rest) := by
  induction pool with
  | nil => intro s rest h; simp [popEarliest] at h
  | cons a tail ih =>
    intro s rest h
    cases hl : popEarliest tail with
    | none =>
      have htail : tail = [] := by
        cases tail with
        | nil => rfl
        | cons b t =>
          have hsome := popEarliest_isSome b t
          rw [hl] at hsome
          simp at hsome
      subst htail
      simp only [popEarliest] at h
      simp at h
      obtain ⟨h1, h2⟩ := h
      subst h1; subst h2
      exact List.Perm.refl _
    | some p =>
      obtain ⟨m, restMin⟩ := p
      simp only [popEarliest] at h
      rw [hl] at h
      by_cases hle : a.next_available ≤ m.next_available
      · simp [hle] at h
        obtain ⟨h1, h2⟩ := h
        subst h1; subst h2
        exact List.Perm.refl _
      · simp [hle] at h
        obtain ⟨h1, h2⟩ := h
        subst h1; subst h2
        exact ((ih m restMin hl).cons a).trans (List.Perm.swap m a restMin)

/-- C5: when every endpoint of a nonempty pool has a strictly future
`next_available`, one `rotating_backoff` iteration pops the earliest
endpoint, pushes it straight back and raises `NoAvailableRPC` without
sleeping; the restored pool is a permutation of the original (the pool is
unchanged as a multiset). -/
theorem rotating_backoff_all_cooling (now : Rat) (pool : List EndpointState)
    (hne : pool ≠ []) (hall : ∀ s ∈ pool, now < s.next_available) :
    ∃ s rest, popEarliest pool = some (s, rest)
      ∧ rotating_backoff_pick now pool = .noAvailableRPC (s :: rest)
      ∧ (s :: rest).Perm pool := by
  cases pool with
  | nil => exact absurd rfl hne
  | cons a tail =>
    obtain ⟨⟨s, rest⟩, hpop⟩ := Option.isSome_iff_exists.mp (popEarliest_isSome a tail)
    have hperm := popEarliest_perm _ _ _ hpop
    have hmem : s ∈ a :: tail := hperm.mem_iff.mpr (List.mem_cons_self s rest)
    refine ⟨s, rest, hpop, ?_, hperm.symm⟩
    unfold rotating_backoff_pick
    rw [hpop]
    simp [hall s hmem]

/-- C5 witness: the all-cooling behaviour evaluated on the concrete
two-endpoint pool at time 5. -/
theorem rotating_backoff_all_cooling_witness :
    ∃ s rest, popEarliest coolingPool = some (s, rest)
      ∧ rotating_backoff_pick 5 coolingPool = .noAvailableRPC (s :: rest)
      ∧ (s :: rest).Perm coolingPool :=
  rotating_backoff_all_cooling 5 coolingPool (by decide) (by decide)

/-- C3 counterexample: a timed-out wait in which no poll iteration ever
observed a receipt, but the `get_transaction` probe reports the transaction
mined, raises `FinalityTimeout` - although the claim reserves
`FinalityTimeout` for the receipt-was-observed case and assigns the
no-receipt cases to `TxPendingTimeout`/`TransactionDropped` only. -/
theorem wait_for_tx_finality_counterexample :
    wait_for_tx_finality 10 [minedProbeObs] none = .finalityTimeout
    ∧ (∀ obs ∈ [minedProbeObs], obs.receipt = none)
    ∧ minedProbeObs.tx_probe = some { blockNumber := some 5 } := by
  refine ⟨rfl, by decide, rfl⟩

/-- C3 (amended): before the timeout, `wait_for_tx_finality` returns the
receipt as soon as the fetched block number reaches
`receipt.blockNumber + finality_blocks`; at a timed-out iteration the
classification uses that iteration's observations: with a receipt in hand
(and the block number fetched) it raises `FinalityTimeout` even if the
confirmations are insufficient; with no receipt, the `get_transaction`
probe decides - pending transaction: `TxPendingTimeout`; mined
transaction: `FinalityTimeout`; unknown transaction:
`TransactionDropped`. -/
theorem wait_for_tx_finality_classification (fb : Nat) (obs : FinalityObs)
    (rest : List FinalityObs) (lastbn : Option Nat) :
    (∀ r bn, obs.receipt = some r → obs.block_number = some bn →
        r.blockNumber + fb ≤ bn →
        wait_for_tx_finality fb (obs :: rest) lastbn = .finalized r)
    ∧ (∀ r bn, obs.timed_out = true → obs.receipt = some r →
        obs.block_number = some bn → bn < r.blockNumber + fb →
        wait_for_tx_finality fb (obs :: rest) lastbn = .finalityTimeout)
    ∧ (∀ p, obs.timed_out = true → obs.receipt = none → obs.tx_probe = some p →
        p.blockNumber = none →
        wait_for_tx_finality fb (obs :: rest) lastbn = .txPendingTimeout)
    ∧ (∀ p k, obs.timed_out = true → obs.receipt = none → obs.tx_probe = some p →
        p.blockNumber = some k →
        wait_for_tx_finality fb (obs :: rest) lastbn = .finalityTimeout)
    ∧ (obs.timed_out = true → obs.receipt = none → obs.tx_probe = none →
        wait_for_tx_finality fb (obs :: rest) lastbn = .transactionDropped) := by
  refine ⟨?_, ?_, ?_, ?_, ?_⟩
  · intro r bn hr hb hle
    simp [wait_for_tx_finality, hr, hb, hle]
  · intro r bn ht hr hb hlt
    simp [wait_for_tx_finality, finality_timeout_classification, hr, hb, ht,
      Nat.not_le.mpr hlt]
  · intro p ht hr hp hpb
    simp [wait_for_tx_finality, finality_timeout_classification, hr, ht, hp, hpb]
  · intro p k ht hr hp hpb
    simp [wait_for_tx_finality, finality_timeout_classification, hr, ht, hp, hpb]
  · intro ht hr hp
    simp [wait_for_tx_finality, finality_timeout_classification, hr, ht, hp]

/-- C3 witness: the amended classification evaluated on a confirmed receipt
(return path) and on the no-receipt-but-mined probe (now classified as
`FinalityTimeout`). -/
theorem wait_for_tx_finality_classification_witness :
    wait_for_tx_finality 3 [confirmedObs] none = .finalized confirmableReceipt
    ∧ wait_for_tx_finality 10 [minedProbeObs] none = .finalityTimeout :=
  ⟨(wait_for_tx_finality_classification 3 confirmedObs [] none).1
      confirmableReceipt 5 rfl rfl (by decide),
   (wait_for_tx_finality_classification 10 minedProbeObs [] none).2.2.2.1
      { blockNumber := some 5 } 5 rfl rfl rfl rfl⟩

/-- C6 counterexample: on a registry that holds the (chain, currency) entry
on both sides and both counter-chains in the connectors maps - so the
claim promises a successful resolution - but whose connector map lacks the
FAST tier, `_resolve_socket_route` raises `KeyError` (from
`connectors[tgt_chain][TARGET_SPEED]`), not `BridgeRouteError`, and
returns nothing. -/
theorem resolve_socket_route_counterexample :
    _resolve_socket_route speedlessRegistry .DEPOSIT .ETH .USDC = .keyError
    ∧ (alookup (socket_tgt_chain .DEPOSIT .ETH) speedlessSrcData.connectors).isSome
    ∧ (alookup (socket_src_chain .DEPOSIT .ETH) speedlessTgtData.connectors).isSome
    ∧ RouteResolution.keyError ≠ RouteResolution.bridgeRouteError := by
  decide

/-- C6 (amended): given that the registry holds both chain keys (a missing
chain key raises `KeyError`, not `BridgeRouteError`),
`_resolve_socket_route` raises `BridgeRouteError` exactly when the currency
is absent from either side's chain map or the counter-chain is missing from
either side's connectors map; otherwise it returns the source token data
with the target-chain connector at the FAST tier - unless that tier itself
is absent from the connector map, in which case it raises `KeyError`. -/
theorem resolve_socket_route_characterization (registry : Registry)
    (direction : Direction) (remote : ChainID) (currency : Currency)
    (srcChainMap tgtChainMap : List (Currency × TokenData))
    (hsrc : alookup (socket_src_chain direction remote) registry = some srcChainMap)
    (htgt : alookup (socket_tgt_chain direction remote) registry = some tgtChainMap) :
    (alookup currency srcChainMap = none →
        _resolve_socket_route registry direction remote currency = .bridgeRouteError)
    ∧ (∀ std, alookup currency srcChainMap = some std →
        alookup currency tgtChainMap = none →
        _resolve_socket_route registry direction remote currency = .bridgeRouteError)
    ∧ (∀ std ttd, alookup currency srcChainMap = some std →
        alookup currency tgtChainMap = some ttd →
        alookup (socket_tgt_chain direction remote) std.connectors = none →
        _resolve_socket_route registry direction remote currency = .bridgeRouteError)
    ∧ (∀ std ttd sm, alookup currency srcChainMap = some std →
        alookup currency tgtChainMap = some ttd →
        alookup (socket_tgt_chain direction remote) std.connectors = some sm →
        alookup (socket_src_chain direction remote) ttd.connectors = none →
        _resolve_socket_route registry direction remote currency = .bridgeRouteError)
    ∧ (∀ std ttd sm cm, alookup currency srcChainMap = some std →
        alookup currency tgtChainMap = some ttd →
        alookup (socket_tgt_chain direction remote) std.connectors = some sm →
        alookup (socket_src_chain direction remote) ttd.connectors = some cm →
        _resolve_socket_route registry direction remote currency =
          (match alookup TARGET_SPEED sm with
           | none => .keyError
           | some c => .resolved std c)) := by
  refine ⟨?_, ?_, ?_, ?_, ?_⟩
  · intro hnone
    simp [_resolve_socket_route, hsrc, hnone]
  · intro std hstd hnone
    simp [_resolve_socket_route, hsrc, htgt, hstd, hnone]
  · intro std ttd hstd httd hc
    simp [_resolve_socket_route, hsrc, htgt, hstd, httd, hc]
  · intro std ttd sm hstd httd hsm hc
    simp [_resolve_socket_route, hsrc, htgt, hstd, httd, hsm, hc]
  · intro std ttd sm cm hstd httd hsm hcm
    simp [_resolve_socket_route, hsrc, htgt, hstd, httd, hsm, hcm]

/-- C6 witness: the route characterization evaluated on the fully populated
USDC registry, resolving to the FAST connector. -/
theorem resolve_socket_route_characterization_witness :
    _resolve_socket_route fastRegistry .DEPOSIT .ETH .USDC
      = .resolved fastSrcData 7 := by
  have h := (resolve_socket_route_characterization fastRegistry .DEPOSIT .ETH .USDC
      [(Currency.USDC, fastSrcData)] [(Currency.USDC, fastTgtData)]
      (by decide) (by decide)).2.2.2.2
      fastSrcData fastTgtData [("FAST", 7)] [("FAST", 8)]
      (by decide) (by decide) (by decide) (by decide)
  rw [h]
  decide

/-- C7: correlation-identifier extraction decodes the last source-receipt
log as `OFTSent` (Protocol A) and the second-to-last as `MessageOutbound`
(Protocol B); a missing receipt, too few logs, or a log of the wrong shape
makes the fetcher raise `BridgeEventParseError`; on success the target-side
filter starts at the recorded `target_from_block` and matches the extracted
identifier (guid argument filter for Protocol A, msgId match condition for
Protocol B). -/
theorem bridge_event_correlation (receipt : Option TxReceipt) (tfb : Nat) :
    (receipt = none →
        _fetch_lz_event_filter receipt tfb = .error ()
        ∧ _fetch_socket_event_filter receipt tfb = .error ())
    ∧ (∀ r, receipt = some r → r.logs = [] →
        _fetch_lz_event_filter receipt tfb = .error ())
    ∧ (∀ r, receipt = some r → r.logs.length ≤ 1 →
        _fetch_socket_event_filter receipt tfb = .error ())
    ∧ (∀ r e, receipt = some r → r.logs.getLast? = some e →
        process_oft_sent e.shape = none →
        _fetch_lz_event_filter receipt tfb = .error ())
    ∧ (∀ r e, receipt = some r → secondLast r.logs = some e →
        process_message_outbound e.shape = none →
        _fetch_socket_event_filter receipt tfb = .error ())
    ∧ (∀ r e g, receipt = some r → r.logs.getLast? = some e →
        process_oft_sent e.shape = some g →
        _fetch_lz_event_filter receipt tfb
          = .ok (g, { fromBlock := tfb, guid_filter := some g }))
    ∧ (∀ r e m, receipt = some r → secondLast r.logs = some e →
        process_message_outbound e.shape = some m →
        _fetch_socket_event_filter receipt tfb
          = .ok (m, { fromBlock := tfb, match_msg_id := m })) := by
  refine ⟨?_, ?_, ?_, ?_, ?_, ?_, ?_⟩
  · intro hnone
    subst hnone
    exact ⟨rfl, rfl⟩
  · intro r hr hlogs
    simp [_fetch_lz_event_filter, lz_extract_guid, hr, hlogs]
  · intro r hr hlen
    have hsl : secondLast r.logs = none := by
      cases hL : r.logs with
      | nil => rfl
      | cons a t =>
        cases t with
        | nil => rfl
        | cons b t2 =>
          rw [hL] at hlen
          simp at hlen
    simp [_fetch_socket_event_filter, socket_extract_msg_id, hr, hsl]
  · intro r e hr hlast hshape
    simp [_fetch_lz_event_filter, lz_extract_guid, hr, hlast, hshape]
  · intro r e hr hsl hshape
    simp [_fetch_socket_event_filter, socket_extract_msg_id, hr, hsl, hshape]
  · intro r e g hr hlast hshape
    simp [_fetch_lz_event_filter, lz_extract_guid, hr, hlast, hshape]
  · intro r e m hr hsl hshape
    simp [_fetch_socket_event_filter, socket_extract_msg_id, hr, hsl, hshape]

/-- C7 witness: extraction and filter construction evaluated on concrete
LayerZero and Socket receipts. -/
theorem bridge_event_correlation_witness :
    _fetch_lz_event_filter (some oftSentReceipt) 50
      = .ok (42, { fromBlock := 50, guid_filter := some 42 })
    ∧ _fetch_socket_event_filter (some socketOutboundReceipt) 60
      = .ok (9, { fromBlock := 60, match_msg_id := 9 }) :=
  ⟨(bridge_event_correlation (some oftSentReceipt) 50).2.2.2.2.2.1
      oftSentReceipt { transactionHash := 12, shape := .oftSent 42 } 42 rfl (by decide) rfl,
   (bridge_event_correlation (some socketOutboundReceipt) 60).2.2.2.2.2.2
      socketOutboundReceipt { transactionHash := 13, shape := .messageOutbound 9 } 9
      rfl (by decide) rfl⟩

/-- C2 counterexample: with the source receipt reverted (EIP-658 status 0,
hence no logs), `poll_bridge_progress` does not return a result at all: it
raises `PartialBridgeResult` (here the `Except.error` carrying the
partially updated result, whose derived status is FAILED); the second
component records that no target-chain log scan was started. -/
theorem poll_bridge_progress_counterexample :
    poll_bridge_progress revertedPollEnv drvPendingResult
      = (.error drvFailedSourceResult, false)
    ∧ drvFailedSourceResult.status = some TxStatus.FAILED
    ∧ revertedSourceReceipt.status = 0 := by
  refine ⟨rfl, rfl, rfl⟩

/-- C2 (amended): when source finality yields a receipt with an empty log
list - as it does for every reverted transaction - `poll_bridge_progress`
raises `PartialBridgeResult` (caused by the `BridgeEventParseError` from
decoding the expected event out of the empty log list) carrying the result
with the source receipt attached, and no target-chain log scan is started;
when that receipt's status code is 0, the carried result's overall status
is FAILED. -/
theorem poll_bridge_progress_reverted_source (env : PollEnv) (tx : BridgeTxResult)
    (r : TxReceipt) (hfin : env.source_finality = .finalized r) (hlogs : r.logs = []) :
    poll_bridge_progress env tx
      = (.error { tx with source_tx := { tx.source_tx with tx_receipt := some r } }, false)
    ∧ (r.status = 0 →
        ({ tx with source_tx := { tx.source_tx with tx_receipt := some r } }
          : BridgeTxResult).status = some TxStatus.FAILED) := by
  constructor
  · unfold poll_bridge_progress
    rw [hfin]
    cases hb : tx.bridge <;>
      simp [hb, lz_extract_guid, socket_extract_msg_id, secondLast, hlogs]
  · intro hst
    simp [BridgeTxResult.status, TxResult.status, txStatusOfCode, hst]

/-- C2 witness: the reverted-source behaviour evaluated on the concrete
Socket (USDC) bridge result. -/
theorem poll_bridge_progress_reverted_source_witness :
    poll_bridge_progress revertedPollEnv usdcPendingResult
      = (.error usdcFailedSourceResult, false)
    ∧ usdcFailedSourceResult.status = some TxStatus.FAILED :=
  ⟨(poll_bridge_progress_reverted_source revertedPollEnv usdcPendingResult
      revertedSourceReceipt rfl rfl).1,
   (poll_bridge_progress_reverted_source revertedPollEnv usdcPendingResult
      revertedSourceReceipt rfl rfl).2 rfl⟩

end DeriveClient
